import Mathlib

/-!
Shallow embedding of `src/extension/public/resize_icon.py`.

The script reads one command-line argument (an image path), decodes the
image once, and for each size in the fixed list `[16, 48, 128]` resizes
the decoded bitmap to a square of that side with nearest-neighbor
sampling, saves it as `icon-<size>.png` in the current working
directory, and prints `Created icon-<size>.png`.

Modelling choices:
* A decoded bitmap is `Img`: width, height, and a pixel lookup function.
* PIL's `img.resize((w, h), Image.Resampling.NEAREST)` maps destination
  pixel `x` to source column `floor ((x + 0.5) * srcW / w)`, computed
  here exactly in natural arithmetic as `(2*x + 1) * srcW / (2*w)`.
* `Image.open` is modelled by a map `disk : String → Option Img`:
  `none` means the path is missing or not decodable.
* PNG encoding is a deterministic injective constructor `FileData.png`.
* Each iteration's `resized.save` may fail (unwritable directory, disk
  full); an oracle `saveOk : Nat → Bool` tells whether the save of
  iteration `k` succeeds.  A run records the paths opened, the files
  written (in order), the stdout lines (in order), and an optional
  uncaught error (an uncaught Python exception exits with a non-zero
  status).
-/

namespace ResizeIcon

/-- A decoded raster bitmap: width, height, and pixel colors. -/
structure Img where
  width : Nat
  height : Nat
  pix : Nat → Nat → Nat

instance : Inhabited Img := ⟨⟨0, 0, fun _ _ => 0⟩⟩

/-- Source index chosen by nearest-neighbor sampling when scaling an
axis of `src` source pixels to `dst` destination pixels: the exact
value of `floor ((x + 0.5) * src / dst)`. -/
def nearestIndex (src dst x : Nat) : Nat :=
  (2 * x + 1) * src / (2 * dst)

/-- The script's `img.resize((w, h), Image.Resampling.NEAREST)`: a fresh
bitmap of the requested dimensions, each pixel sampled from the nearest
source pixel, the two axes scaled independently. -/
def Img.resize (img : Img) (w h : Nat) : Img :=
  { width := w
    height := h
    pix := fun x y =>
      img.pix (nearestIndex img.width w x) (nearestIndex img.height h y) }

/-- Contents of a written file; the script only ever writes PNG
encodings, produced by a deterministic encoder. -/
inductive FileData where
  | png : Img → FileData

/-- The uncaught exceptions the script can die with. -/
inductive ScriptError where
  | argIndexError
  | openError
  | saveError (size : Nat)

/-- The fixed size list `[16, 48, 128]` iterated by the script. -/
def iconSizes : List Nat := [16, 48, 128]

/-- The output filename `f'icon-\x7bsize\x7d.png'` for a given size. -/
def iconName (s : Nat) : String :=
  "icon-" ++ toString s ++ ".png"

/-- The stdout line `f'Created icon-\x7bsize\x7d.png'` for a given size. -/
def createdLine (s : Nat) : String :=
  "Created " ++ iconName s

/-- Observable output of the `for size in [16, 48, 128]` loop. -/
structure LoopOut where
  files : List (String × FileData)
  out : List String
  err : Option ScriptError

/-- The script's loop body, iterated over the remaining sizes, with `k`
the index of the current iteration: resize, save (which the oracle
`saveOk` may fail, aborting the remaining iterations), then print. -/
def loop (img : Img) (saveOk : Nat → Bool) : List Nat → Nat → LoopOut
  | [], _ => ⟨[], [], none⟩
  | s :: rest, k =>
    if saveOk k then
      let r := loop img saveOk rest (k + 1)
      ⟨(iconName s, FileData.png (img.resize s s)) :: r.files,
       createdLine s :: r.out, r.err⟩
    else
      ⟨[], [], some (ScriptError.saveError s)⟩

/-- Observable outcome of one run of the script: which paths were
opened, which files were written to the working directory (in order),
the stdout lines (in order), and the uncaught error, if any. -/
structure RunResult where
  opens : List String
  files : List (String × FileData)
  out : List String
  err : Option ScriptError

/-- The whole script: read `sys.argv[1]` (IndexError if absent), open
the image at that path (uncaught exception if missing or not
decodable), then run the loop over `iconSizes`. -/
def runScript (argv : List String) (disk : String → Option Img)
    (saveOk : Nat → Bool) : RunResult :=
  match argv[1]? with
  | none => ⟨[], [], [], some ScriptError.argIndexError⟩
  | some path =>
    match disk path with
    | none => ⟨[path], [], [], some ScriptError.openError⟩
    | some img =>
      let r := loop img saveOk iconSizes 0
      ⟨[path], r.files, r.out, r.err⟩

/-- Apply a run's file writes, in order, to a working directory
(a map from filename to contents); each write replaces whatever was
stored under that name before. -/
def applyWrites (cwd : String → Option FileData) :
    List (String × FileData) → String → Option FileData
  | [] => cwd
  | (n, d) :: rest =>
    applyWrites (fun m => if m = n then some d else cwd m) rest

/-- Heap-model output for the mutation claim: the final object heap and
the source bitmap each iteration read. -/
structure HeapOut where
  heap : List Img
  reads : List Img

/-- Heap model of the loop, mirroring Python object semantics: `addr`
is the heap address bound to the variable `img`; each iteration reads
the object at `addr`, allocates a fresh resized bitmap at the end of
the heap, and never stores through `addr`. -/
def loopHeap (addr : Nat) : List Nat → List Img → HeapOut
  | [], h => ⟨h, []⟩
  | s :: rest, h =>
    let src := h.getD addr default
    let resized := src.resize s s
    let r := loopHeap addr rest (h ++ [resized])
    ⟨r.heap, src :: r.reads⟩

/-- Heap model of a successful run: the decode allocates the source
bitmap at address 0, then the loop runs over `iconSizes`. -/
def runHeap (img : Img) : HeapOut :=
  loopHeap 0 iconSizes [img]

/-- The file list a fully successful run writes, in order. -/
def expectedFiles (img : Img) : List (String × FileData) :=
  [(iconName 16, FileData.png (img.resize 16 16)),
   (iconName 48, FileData.png (img.resize 48 48)),
   (iconName 128, FileData.png (img.resize 128 128))]

/-- The 256x256 solid-color bitmap of color `c`. -/
def solidImg (c : Nat) : Img :=
  ⟨256, 256, fun _ _ => c⟩

lemma runScript_success (argv : List String) (disk : String → Option Img)
    (p : String) (img : Img) (h1 : argv[1]? = some p)
    (h2 : disk p = some img) :
    runScript argv disk (fun _ => true) =
      ⟨[p], expectedFiles img,
       [createdLine 16, createdLine 48, createdLine 128], none⟩ := by
  simp only [runScript, h1, h2]
  rfl

/-- C1: every run on a decodable input writes exactly the three files
`icon-16.png`, `icon-48.png`, `icon-128.png`, in that order, each a PNG
encoding, and finishes without error. -/
theorem run_writes_exactly_three_pngs (argv : List String)
    (disk : String → Option Img) (p : String) (img : Img)
    (h1 : argv[1]? = some p) (h2 : disk p = some img) :
    (runScript argv disk (fun _ => true)).files =
      [(iconName 16, FileData.png (img.resize 16 16)),
       (iconName 48, FileData.png (img.resize 48 48)),
       (iconName 128, FileData.png (img.resize 128 128))] ∧
    (runScript argv disk (fun _ => true)).err = none := by
  rw [runScript_success argv disk p img h1 h2]
  exact ⟨rfl, rfl⟩

theorem run_writes_exactly_three_pngs_witness :
    (["resize_icon.py", "in.png"][1]? = some "in.png") ∧
    ((runScript ["resize_icon.py", "in.png"]
        (fun _ => some ⟨2, 3, fun _ _ => 7⟩) (fun _ => true)).files =
      [(iconName 16, FileData.png ((Img.mk 2 3 (fun _ _ => 7)).resize 16 16)),
       (iconName 48, FileData.png ((Img.mk 2 3 (fun _ _ => 7)).resize 48 48)),
       (iconName 128, FileData.png ((Img.mk 2 3 (fun _ _ => 7)).resize 128 128))] ∧
     (runScript ["resize_icon.py", "in.png"]
        (fun _ => some ⟨2, 3, fun _ _ => 7⟩) (fun _ => true)).err = none) :=
  ⟨rfl, run_writes_exactly_three_pngs _ _ "in.png" _ rfl rfl⟩

/-- C2: with no squareness assumption on the input, every produced icon
is a square bitmap whose side equals the size in its filename, and the
resize stretches: each axis is sampled independently from the source's
own width and height, so a non-square input is accepted and distorted
rather than letterboxed or rejected. -/
theorem outputs_square_nonsquare_stretched (argv : List String)
    (disk : String → Option Img) (p : String) (img : Img)
    (h1 : argv[1]? = some p) (h2 : disk p = some img) :
    (runScript argv disk (fun _ => true)).err = none ∧
    (runScript argv disk (fun _ => true)).files = expectedFiles img ∧
    (∀ s, (img.resize s s).width = s ∧ (img.resize s s).height = s) ∧
    (∀ s x y, (img.resize s s).pix x y =
      img.pix (nearestIndex img.width s x) (nearestIndex img.height s y)) := by
  rw [runScript_success argv disk p img h1 h2]
  exact ⟨rfl, rfl, fun s => ⟨rfl, rfl⟩, fun s x y => rfl⟩

theorem outputs_square_nonsquare_stretched_witness :
    (runScript ["resize_icon.py", "wide.png"]
        (fun _ => some ⟨10, 3, fun x y => x + y⟩) (fun _ => true)).err = none ∧
    (runScript ["resize_icon.py", "wide.png"]
        (fun _ => some ⟨10, 3, fun x y => x + y⟩) (fun _ => true)).files =
      expectedFiles ⟨10, 3, fun x y => x + y⟩ ∧
    (∀ s, ((Img.mk 10 3 (fun x y => x + y)).resize s s).width = s ∧
      ((Img.mk 10 3 (fun x y => x + y)).resize s s).height = s) ∧
    (∀ s x y, ((Img.mk 10 3 (fun x y => x + y)).resize s s).pix x y =
      (Img.mk 10 3 (fun x y => x + y)).pix
        (nearestIndex 10 s x) (nearestIndex 3 s y)) :=
  outputs_square_nonsquare_stretched _ _ "wide.png" _ rfl rfl

/-- C3: if the path holds no decodable image (in particular, if it does
not exist) the run dies with the uncaught open error after attempting
only the open: no file is written and nothing is printed. -/
theorem missing_input_no_output (argv : List String)
    (disk : String → Option Img) (p : String) (saveOk : Nat → Bool)
    (h1 : argv[1]? = some p) (h2 : disk p = none) :
    runScript argv disk saveOk =
      ⟨[p], [], [], some ScriptError.openError⟩ := by
  simp only [runScript, h1, h2]

theorem missing_input_no_output_witness :
    runScript ["resize_icon.py", "absent.png"] (fun _ => none)
        (fun _ => true) =
      ⟨["absent.png"], [], [], some ScriptError.openError⟩ :=
  missing_input_no_output _ _ "absent.png" _ rfl rfl

/-- C4: a successful run prints exactly three lines, one per file, of
the form `Created icon-<size>.png`, in the fixed order 16, 48, 128,
whatever the input image was. -/
theorem stdout_three_lines_fixed_order (argv : List String)
    (disk : String → Option Img) (p : String) (img : Img)
    (h1 : argv[1]? = some p) (h2 : disk p = some img) :
    (runScript argv disk (fun _ => true)).out =
      ["Created icon-16.png", "Created icon-48.png",
       "Created icon-128.png"] := by
  rw [runScript_success argv disk p img h1 h2]
  rfl

theorem stdout_three_lines_fixed_order_witness :
    (runScript ["resize_icon.py", "in.png"]
        (fun _ => some ⟨5, 5, fun _ _ => 1⟩) (fun _ => true)).out =
      ["Created icon-16.png", "Created icon-48.png",
       "Created icon-128.png"] :=
  stdout_three_lines_fixed_order _ _ "in.png" _ rfl rfl

/-- C5: if the save of iteration `k` fails (all earlier saves having
succeeded), the remaining iterations never run: the run's writes and
stdout are exactly the first `k` of the successful run's, the uncaught
error names the failing size, and the files written before `k` are
still present, with their contents, after applying the run's writes to
any working directory. -/
theorem save_failure_keeps_earlier_files (argv : List String)
    (disk : String → Option Img) (p : String) (img : Img)
    (saveOk : Nat → Bool) (k : Nat)
    (h1 : argv[1]? = some p) (h2 : disk p = some img) (hk : k < 3)
    (hbefore : ∀ j, j < k → saveOk j = true) (hfail : saveOk k = false) :
    (runScript argv disk saveOk).files = (expectedFiles img).take k ∧
    (runScript argv disk saveOk).out =
      [createdLine 16, createdLine 48, createdLine 128].take k ∧
    (runScript argv disk saveOk).err =
      some (ScriptError.saveError (iconSizes.getD k 0)) ∧
    (∀ cwd j, j < k →
      applyWrites cwd (runScript argv disk saveOk).files
          (iconName (iconSizes.getD j 0)) =
        some (FileData.png
          (img.resize (iconSizes.getD j 0) (iconSizes.getD j 0)))) := by
  simp only [runScript, h1, h2]
  interval_cases k
  · refine ⟨?_, ?_, ?_, fun cwd j hj => absurd hj (by omega)⟩ <;>
      simp [iconSizes, loop, hfail, expectedFiles]
  · have h0 : saveOk 0 = true := hbefore 0 (by omega)
    refine ⟨?_, ?_, ?_, ?_⟩
    · simp [iconSizes, loop, hfail, h0, expectedFiles]
    · simp [iconSizes, loop, hfail, h0]
    · simp [iconSizes, loop, hfail, h0]
    · intro cwd j hj
      interval_cases j
      simp [iconSizes, loop, hfail, h0, applyWrites]
  · have h0 : saveOk 0 = true := hbefore 0 (by omega)
    have h1' : saveOk 1 = true := hbefore 1 (by omega)
    refine ⟨?_, ?_, ?_, ?_⟩
    · simp [iconSizes, loop, hfail, h0, h1', expectedFiles]
    · simp [iconSizes, loop, hfail, h0, h1']
    · simp [iconSizes, loop, hfail, h0, h1']
    · intro cwd j hj
      interval_cases j
      · simp only [iconSizes, loop, h0, h1', hfail, if_true, if_false,
          List.getD, List.get?, applyWrites, Option.getD]
        rfl
      · simp only [iconSizes, loop, h0, h1', hfail, if_true, if_false,
          List.getD, List.get?, applyWrites, Option.getD]

theorem save_failure_keeps_earlier_files_witness :
    ((fun j => j == 0) 1 = false) ∧
    (runScript ["resize_icon.py", "in.png"]
        (fun _ => some ⟨4, 4, fun _ _ => 2⟩) (fun j => j == 0)).files =
      (expectedFiles ⟨4, 4, fun _ _ => 2⟩).take 1 ∧
    (runScript ["resize_icon.py", "in.png"]
        (fun _ => some ⟨4, 4, fun _ _ => 2⟩) (fun j => j == 0)).out =
      [createdLine 16, createdLine 48, createdLine 128].take 1 ∧
    (runScript ["resize_icon.py", "in.png"]
        (fun _ => some ⟨4, 4, fun _ _ => 2⟩) (fun j => j == 0)).err =
      some (ScriptError.saveError (iconSizes.getD 1 0)) ∧
    (∀ cwd j, j < 1 →
      applyWrites cwd
          (runScript ["resize_icon.py", "in.png"]
            (fun _ => some ⟨4, 4, fun _ _ => 2⟩) (fun j => j == 0)).files
          (iconName (iconSizes.getD j 0)) =
        some (FileData.png
          ((Img.mk 4 4 (fun _ _ => 2)).resize (iconSizes.getD j 0)
            (iconSizes.getD j 0)))) :=
  ⟨rfl,
    save_failure_keeps_earlier_files _ _ "in.png" _ _ 1 rfl rfl
      (by omega)
      (by
        intro j hj
        have hj0 : j = 0 := by omega
        subst hj0
        rfl)
      rfl⟩

/-- C6: nearest-neighbor resampling of the 256x256 solid-color image of
color `c`: every pixel of every resized output equals the source color
exactly, the sampled source index is always a real source index, and a
successful run writes exactly the three resized encodings of it. -/
theorem solid_color_preserved (argv : List String)
    (disk : String → Option Img) (p : String) (c : Nat)
    (h1 : argv[1]? = some p) (h2 : disk p = some (solidImg c)) :
    (∀ s x y, ((solidImg c).resize s s).pix x y = c) ∧
    (∀ s x, 0 < s → x < s → nearestIndex 256 s x < 256) ∧
    (runScript argv disk (fun _ => true)).files =
      expectedFiles (solidImg c) := by
  refine ⟨fun s x y => rfl, fun s x hs hx => ?_, ?_⟩
  · unfold nearestIndex
    have h2s : 0 < 2 * s := by omega
    rw [Nat.div_lt_iff_lt_mul h2s]
    omega
  · rw [runScript_success argv disk p (solidImg c) h1 h2]

theorem solid_color_preserved_witness :
    (∀ s x y, ((solidImg 9).resize s s).pix x y = 9) ∧
    (∀ s x, 0 < s → x < s → nearestIndex 256 s x < 256) ∧
    (runScript ["resize_icon.py", "flat.png"] (fun _ => some (solidImg 9))
        (fun _ => true)).files = expectedFiles (solidImg 9) :=
  solid_color_preserved _ _ "flat.png" 9 rfl rfl

/-- C7: in the heap model of a successful run, the decoded source
bitmap at address 0 is never mutated — the final heap still holds it
unchanged, followed only by the three freshly allocated resized
bitmaps — and each of the three iterations reads exactly the bitmap
produced by the single initial decode. -/
theorem source_never_mutated (img : Img) :
    (runHeap img).heap =
      [img, img.resize 16 16, img.resize 48 48, img.resize 128 128] ∧
    (runHeap img).reads = [img, img, img] :=
  ⟨rfl, rfl⟩

/-- C8: determinism. Two runs whose command lines name paths that hold
the same decoded image, with the same save outcomes, write identical
file contents, print identical output, and end with the same status;
with the deterministic encoder this is byte-for-byte identity. -/
theorem deterministic_same_input (argv1 argv2 : List String)
    (disk1 disk2 : String → Option Img) (p1 p2 : String) (img : Img)
    (saveOk : Nat → Bool)
    (h1 : argv1[1]? = some p1) (h2 : disk1 p1 = some img)
    (h3 : argv2[1]? = some p2) (h4 : disk2 p2 = some img) :
    (runScript argv1 disk1 saveOk).files =
      (runScript argv2 disk2 saveOk).files ∧
    (runScript argv1 disk1 saveOk).out =
      (runScript argv2 disk2 saveOk).out ∧
    (runScript argv1 disk1 saveOk).err =
      (runScript argv2 disk2 saveOk).err := by
  simp only [runScript, h1, h2, h3, h4]
  exact ⟨trivial, trivial, trivial⟩

theorem deterministic_same_input_witness :
    (runScript ["resize_icon.py", "a.png"]
        (fun _ => some ⟨3, 3, fun _ _ => 4⟩) (fun _ => true)).files =
      (runScript ["resize_icon.py", "b.png"]
        (fun _ => some ⟨3, 3, fun _ _ => 4⟩) (fun _ => true)).files ∧
    (runScript ["resize_icon.py", "a.png"]
        (fun _ => some ⟨3, 3, fun _ _ => 4⟩) (fun _ => true)).out =
      (runScript ["resize_icon.py", "b.png"]
        (fun _ => some ⟨3, 3, fun _ _ => 4⟩) (fun _ => true)).out ∧
    (runScript ["resize_icon.py", "a.png"]
        (fun _ => some ⟨3, 3, fun _ _ => 4⟩) (fun _ => true)).err =
      (runScript ["resize_icon.py", "b.png"]
        (fun _ => some ⟨3, 3, fun _ _ => 4⟩) (fun _ => true)).err :=
  deterministic_same_input _ _ _ _ "a.png" "b.png" _ _ rfl rfl rfl rfl

/-- C9: invoked with no command-line argument, the script dies with the
index error before opening any file: no path is opened, no file is
written and nothing is printed. -/
theorem no_argument_fails_before_open (argv : List String)
    (disk : String → Option Img) (saveOk : Nat → Bool)
    (h : argv.length ≤ 1) :
    runScript argv disk saveOk =
      ⟨[], [], [], some ScriptError.argIndexError⟩ := by
  have h1 : argv[1]? = none := List.getElem?_eq_none h
  simp only [runScript, h1]

theorem no_argument_fails_before_open_witness :
    runScript ["resize_icon.py"] (fun _ => some ⟨1, 1, fun _ _ => 0⟩)
        (fun _ => true) =
      ⟨[], [], [], some ScriptError.argIndexError⟩ :=
  no_argument_fails_before_open _ _ _ (by decide)

/-- C10: a successful run leaves every name other than `icon-16.png`,
`icon-48.png`, `icon-128.png` untouched in the working directory, and
stores the freshly resized encodings under those three names whatever
they held before — a pre-existing file is silently overwritten, with no
error. -/
theorem only_icon_files_touched (argv : List String)
    (disk : String → Option Img) (p : String) (img : Img)
    (cwd : String → Option FileData)
    (h1 : argv[1]? = some p) (h2 : disk p = some img) :
    (∀ name, name ≠ iconName 16 → name ≠ iconName 48 →
      name ≠ iconName 128 →
      applyWrites cwd (runScript argv disk (fun _ => true)).files name =
        cwd name) ∧
    applyWrites cwd (runScript argv disk (fun _ => true)).files
        (iconName 16) = some (FileData.png (img.resize 16 16)) ∧
    applyWrites cwd (runScript argv disk (fun _ => true)).files
        (iconName 48) = some (FileData.png (img.resize 48 48)) ∧
    applyWrites cwd (runScript argv disk (fun _ => true)).files
        (iconName 128) = some (FileData.png (img.resize 128 128)) ∧
    (runScript argv disk (fun _ => true)).err = none := by
  rw [runScript_success argv disk p img h1 h2]
  refine ⟨?_, ?_, ?_, ?_, rfl⟩
  · intro name hn16 hn48 hn128
    simp only [expectedFiles, applyWrites]
    rw [if_neg hn128, if_neg hn48, if_neg hn16]
  · simp only [expectedFiles, applyWrites]
    rw [if_neg (show ¬(iconName 16 = iconName 128) by decide),
        if_neg (show ¬(iconName 16 = iconName 48) by decide)]
    exact if_pos trivial
  · simp only [expectedFiles, applyWrites]
    rw [if_neg (show ¬(iconName 48 = iconName 128) by decide)]
    exact if_pos trivial
  · simp only [expectedFiles, applyWrites]
    exact if_pos trivial

theorem only_icon_files_touched_witness :
    (∀ name, name ≠ iconName 16 → name ≠ iconName 48 →
      name ≠ iconName 128 →
      applyWrites (fun _ => some (FileData.png ⟨1, 1, fun _ _ => 3⟩))
          (runScript ["resize_icon.py", "in.png"]
            (fun _ => some ⟨6, 2, fun _ _ => 8⟩) (fun _ => true)).files
          name =
        (fun _ => some (FileData.png ⟨1, 1, fun _ _ => 3⟩)) name) ∧
    applyWrites (fun _ => some (FileData.png ⟨1, 1, fun _ _ => 3⟩))
        (runScript ["resize_icon.py", "in.png"]
          (fun _ => some ⟨6, 2, fun _ _ => 8⟩) (fun _ => true)).files
        (iconName 16) =
      some (FileData.png ((Img.mk 6 2 (fun _ _ => 8)).resize 16 16)) ∧
    applyWrites (fun _ => some (FileData.png ⟨1, 1, fun _ _ => 3⟩))
        (runScript ["resize_icon.py", "in.png"]
          (fun _ => some ⟨6, 2, fun _ _ => 8⟩) (fun _ => true)).files
        (iconName 48) =
      some (FileData.png ((Img.mk 6 2 (fun _ _ => 8)).resize 48 48)) ∧
    applyWrites (fun _ => some (FileData.png ⟨1, 1, fun _ _ => 3⟩))
        (runScript ["resize_icon.py", "in.png"]
          (fun _ => some ⟨6, 2, fun _ _ => 8⟩) (fun _ => true)).files
        (iconName 128) =
      some (FileData.png ((Img.mk 6 2 (fun _ _ => 8)).resize 128 128)) ∧
    (runScript ["resize_icon.py", "in.png"]
        (fun _ => some ⟨6, 2, fun _ _ => 8⟩) (fun _ => true)).err =
      none :=
  only_icon_files_touched _ _ "in.png" _ _ rfl rfl

end ResizeIcon
